import Mathlib

/-!
Shallow embedding of the eligibility scoring engine of the student-backend
repository (src/shared/eligibilityCalculator.ts), together with the report
handler verdict of src/server/routes.ts, and proofs of the specified
properties of both.

JS conventions modelled here:
- an optional string field is `Option String` (`none` is `undefined`/`null`);
- JS truthiness of such a field is `truthy` below (empty string is falsy);
- `parseFloat`/`parseInt` return `Option` values, `none` standing for `NaN`;
- every JS comparison `x >= c` against a possibly-NaN number is `qGe`/`zGe`
  below, false when the number is `NaN`;
- the narrative strings pushed into `strengths`/`weaknesses` are modelled by
  the inductive type `Msg`, one constructor per push site, carrying the
  interpolated numeric value; the exact wording is presentation only.
-/

namespace StudentBackend

/-- The fields of the calculator input (a JS `Partial<Submission>` record)
that `calculateEligibilityScore` reads.  Every field is an optional string. -/
structure Profile where
  education : Option String := none
  educationGrade : Option String := none
  gradeType : Option String := none
  hasLanguageTest : Option String := none
  languageTest : Option String := none
  ieltsScore : Option String := none
  hasWorkExperience : Option String := none
  workExperienceYears : Option String := none
  financialCapacity : Option String := none
deriving DecidableEq

/-- JS truthiness of a `string | undefined` value: `undefined` and the empty
string are falsy, every other string is truthy. -/
def truthy : Option String → Bool
  | none => false
  | some s => !s.isEmpty

/-- Longest prefix of decimal digits of a character list, with the rest. -/
def spanDigits : List Char → List Char × List Char
  | [] => ([], [])
  | c :: cs =>
    if c.isDigit then
      let p := spanDigits cs
      (c :: p.1, p.2)
    else ([], c :: cs)

/-- Numeric value of a decimal digit string. -/
def digitsToNat (ds : List Char) : Nat :=
  ds.foldl (fun a c => 10 * a + (c.toNat - 48)) 0

/-- Model of the JS `parseFloat` builtin on the plain decimal literals the
profile fields hold: optional leading spaces, an optional sign, then a digit
string with an optional fractional part; the longest such prefix is parsed.
`NaN` (no digit found) is `none`.  Exponent, `Infinity` and hex forms do not
occur in the modelled inputs. -/
def jsParseFloat (s : String) : Option ℚ :=
  let cs := s.toList.dropWhile (fun c => c = ' ')
  let signed : ℤ × List Char :=
    match cs with
    | '-' :: r => (-1, r)
    | '+' :: r => (1, r)
    | r => (1, r)
  let ip := spanDigits signed.2
  let fp : List Char :=
    match ip.2 with
    | '.' :: r => (spanDigits r).1
    | _ => []
  if ip.1.isEmpty ∧ fp.isEmpty then none
  else some (mkRat (signed.1 * (digitsToNat ip.1 * 10 ^ fp.length + digitsToNat fp)) (10 ^ fp.length))

/-- Model of the JS `parseInt` builtin at its default radix 10: optional
leading spaces, an optional sign, then the longest decimal digit prefix.
`NaN` (no digit found) is `none`. -/
def jsParseInt (s : String) : Option ℤ :=
  let cs := s.toList.dropWhile (fun c => c = ' ')
  let signed : ℤ × List Char :=
    match cs with
    | '-' :: r => (-1, r)
    | '+' :: r => (1, r)
    | r => (1, r)
  let ds := (spanDigits signed.2).1
  if ds.isEmpty then none
  else some (signed.1 * digitsToNat ds)

/-- JS comparison `x >= c` where `x` may be `NaN` (`none`): every comparison
against `NaN` is false. -/
def qGe (x : Option ℚ) (c : ℚ) : Bool :=
  match x with
  | some v => decide (c ≤ v)
  | none => false

/-- JS comparison `x >= c` for a possibly-`NaN` integer. -/
def zGe (x : Option ℤ) (c : ℤ) : Bool :=
  match x with
  | some v => decide (c ≤ v)
  | none => false

/-- The narrative strings pushed into `strengths`/`weaknesses` by the
category scorers, one constructor per push site of the source, carrying the
interpolated numeric value (`none` renders as `NaN` in JS). -/
inductive Msg where
  | phdStrength
  | masterStrength
  | excellentBachelorCgpa (grade : Option ℚ)
  | goodBachelorCgpa (grade : Option ℚ)
  | bachelorCgpaCouldBeHigher (grade : Option ℚ)
  | lowBachelorCgpa (grade : Option ℚ)
  | excellentBachelorPerformance (grade : Option ℚ)
  | goodBachelorPerformance (grade : Option ℚ)
  | bachelorGradeCouldBeHigher (grade : Option ℚ)
  | excellentTwelfth (grade : Option ℚ)
  | goodTwelfth (grade : Option ℚ)
  | twelfthCouldBeStronger (grade : Option ℚ)
  | lowTwelfth (grade : Option ℚ)
  | minimumEducation
  | excellentIelts (overall : Option ℚ)
  | strongIelts (overall : Option ℚ)
  | goodIelts (overall : Option ℚ)
  | ieltsAcceptable (overall : Option ℚ)
  | lowIelts (overall : Option ℚ)
  | excellentToefl (overall : Option ℚ)
  | strongToefl (overall : Option ℚ)
  | goodToefl (overall : Option ℚ)
  | toeflCouldImprove (overall : Option ℚ)
  | excellentPte (overall : Option ℚ)
  | strongPte (overall : Option ℚ)
  | goodPte (overall : Option ℚ)
  | pteNeedsImprovement (overall : Option ℚ)
  | noLanguageTest
  | extensiveWork (years : Option ℤ)
  | goodWork (years : Option ℤ)
  | relevantWork (years : Option ℤ)
  | someWork
  | excellentFinancial
  | strongFinancial
  | adequateFinancial
  | limitedFinancial
deriving DecidableEq

/-- Result of one category scorer: its point contribution and the strength
and weakness messages it pushes, in push order.  The source threads two
mutable arrays through each scorer; each scorer here returns the entries it
appends and the aggregator concatenates them in call order. -/
structure CatResult where
  score : ℤ
  strengths : List Msg
  weaknesses : List Msg
deriving DecidableEq

/-- `calculateEducationScore`, eligibilityCalculator.ts lines 37-105. -/
def calculateEducationScore (p : Profile) : CatResult :=
  if p.education = some "phd" then
    ⟨35, [.phdStrength], []⟩
  else if p.education = some "master" then
    ⟨30, [.masterStrength], []⟩
  else if p.education = some "bachelor" then
    if truthy p.educationGrade ∧ truthy p.gradeType then
      let grade := jsParseFloat (p.educationGrade.getD "")
      if p.gradeType = some "cgpa" then
        if qGe grade (mkRat 17 2) then ⟨25 + 5, [.excellentBachelorCgpa grade], []⟩
        else if qGe grade 7 then ⟨25 + 3, [.goodBachelorCgpa grade], []⟩
        else if qGe grade 6 then ⟨25 + 1, [], [.bachelorCgpaCouldBeHigher grade]⟩
        else ⟨25, [], [.lowBachelorCgpa grade]⟩
      else
        if qGe grade 75 then ⟨25 + 5, [.excellentBachelorPerformance grade], []⟩
        else if qGe grade 60 then ⟨25 + 3, [.goodBachelorPerformance grade], []⟩
        else ⟨25, [], [.bachelorGradeCouldBeHigher grade]⟩
    else ⟨25, [], []⟩
  else if p.education = some "12th" then
    if truthy p.educationGrade then
      let grade := jsParseFloat (p.educationGrade.getD "")
      if qGe grade 85 then ⟨20 + 5, [.excellentTwelfth grade], []⟩
      else if qGe grade 70 then ⟨20 + 3, [.goodTwelfth grade], []⟩
      else if qGe grade 60 then ⟨20 + 1, [], [.twelfthCouldBeStronger grade]⟩
      else ⟨20, [], [.lowTwelfth grade]⟩
    else ⟨20, [], []⟩
  else if p.education = some "10th" then
    ⟨15, [], [.minimumEducation]⟩
  else ⟨0, [], []⟩

/-- `calculateLanguageScore`, eligibilityCalculator.ts lines 107-171.  The
guard checks only truthiness of `languageTest` and `ieltsScore`; the score
string is parsed afterwards, so an unparsable non-empty score reaches the
per-test ladders as `NaN`. -/
def calculateLanguageScore (p : Profile) : CatResult :=
  if p.hasLanguageTest = some "yes" ∧ truthy p.languageTest ∧ truthy p.ieltsScore then
    let overallScore := jsParseFloat (p.ieltsScore.getD "")
    if p.languageTest = some "ielts" then
      if qGe overallScore (mkRat 15 2) then ⟨30, [.excellentIelts overallScore], []⟩
      else if qGe overallScore (mkRat 13 2) then ⟨25, [.strongIelts overallScore], []⟩
      else if qGe overallScore 6 then ⟨20, [.goodIelts overallScore], []⟩
      else if qGe overallScore (mkRat 11 2) then ⟨15, [], [.ieltsAcceptable overallScore]⟩
      else ⟨10, [], [.lowIelts overallScore]⟩
    else if p.languageTest = some "toefl" then
      if qGe overallScore 100 then ⟨30, [.excellentToefl overallScore], []⟩
      else if qGe overallScore 90 then ⟨25, [.strongToefl overallScore], []⟩
      else if qGe overallScore 80 then ⟨20, [.goodToefl overallScore], []⟩
      else ⟨15, [], [.toeflCouldImprove overallScore]⟩
    else if p.languageTest = some "pte" then
      if qGe overallScore 70 then ⟨30, [.excellentPte overallScore], []⟩
      else if qGe overallScore 60 then ⟨25, [.strongPte overallScore], []⟩
      else if qGe overallScore 50 then ⟨20, [.goodPte overallScore], []⟩
      else ⟨15, [], [.pteNeedsImprovement overallScore]⟩
    else ⟨0, [], []⟩
  else ⟨0, [], [.noLanguageTest]⟩

/-- `calculateWorkExperienceScore`, eligibilityCalculator.ts lines 173-202.
With the flag set and a truthy but unparsable years string, `parseInt` gives
`NaN`, every threshold fails, and the final branch still pushes the
some-work-experience strength. -/
def calculateWorkExperienceScore (p : Profile) : CatResult :=
  if p.hasWorkExperience = some "yes" ∧ truthy p.workExperienceYears then
    let years := jsParseInt (p.workExperienceYears.getD "")
    if zGe years 5 then ⟨15, [.extensiveWork years], []⟩
    else if zGe years 3 then ⟨12, [.goodWork years], []⟩
    else if zGe years 1 then ⟨10, [.relevantWork years], []⟩
    else ⟨5, [.someWork], []⟩
  else ⟨5, [], []⟩

/-- `calculateFinancialScore`, eligibilityCalculator.ts lines 204-229. -/
def calculateFinancialScore (p : Profile) : CatResult :=
  if p.financialCapacity = some "above-60" then ⟨20, [.excellentFinancial], []⟩
  else if p.financialCapacity = some "40-60" then ⟨17, [.strongFinancial], []⟩
  else if p.financialCapacity = some "20-40" then ⟨14, [.adequateFinancial], []⟩
  else if p.financialCapacity = some "below-20" then ⟨10, [], [.limitedFinancial]⟩
  else ⟨10, [], []⟩

/-- The five suggestion messages returned by `generateSuggestion`. -/
def excellentSuggestion : String :=
  "Excellent! You have a very strong profile for Canada study visa. Your application is highly competitive."

/-- Suggestion for scores in the 75-84 bracket. -/
def greatSuggestion : String :=
  "Great! You have a strong profile for Canada study visa. Focus on the minor improvements mentioned to maximize your chances."

/-- Suggestion for scores in the 65-74 bracket. -/
def goodSuggestion : String :=
  "Good! You have a solid profile for Canada study visa. Consider addressing the areas for improvement to strengthen your application."

/-- Suggestion for scores in the 55-64 bracket. -/
def potentialSuggestion : String :=
  "You have potential for Canada study visa. We strongly recommend working on the areas mentioned to improve your chances significantly."

/-- Suggestion for scores below 55. -/
def needsImprovementSuggestion : String :=
  "Your profile needs improvement before applying. Our counselors can provide personalized guidance to strengthen your application."

/-- `generateSuggestion`, eligibilityCalculator.ts lines 231-243.  The
`weaknesses` parameter exists in the source signature and is unused there. -/
def generateSuggestion (score : ℤ) (weaknesses : List Msg) : String :=
  if score ≥ 85 then excellentSuggestion
  else if score ≥ 75 then greatSuggestion
  else if score ≥ 65 then goodSuggestion
  else if score ≥ 55 then potentialSuggestion
  else needsImprovementSuggestion

/-- The result record of the engine, eligibilityCalculator.ts lines 3-9. -/
structure EligibilityResult where
  score : ℤ
  isEligible : Bool
  strengths : List Msg
  weaknesses : List Msg
  suggestion : String
deriving DecidableEq

/-- `calculateEligibilityScore`, eligibilityCalculator.ts lines 11-35:
the four category scorers run in order education, language, work, financial;
their contributions are summed, clamped to `[0, 100]`, and the verdict and
suggestion are derived from the clamped score. -/
def calculateEligibilityScore (p : Profile) : EligibilityResult :=
  let educationScore := calculateEducationScore p
  let languageScore := calculateLanguageScore p
  let workScore := calculateWorkExperienceScore p
  let financialScore := calculateFinancialScore p
  let total := educationScore.score + languageScore.score + workScore.score + financialScore.score
  let score := min (max total 0) 100
  let weaknesses :=
    educationScore.weaknesses ++ languageScore.weaknesses ++ workScore.weaknesses ++
      financialScore.weaknesses
  { score := score
    isEligible := decide (score ≥ 60)
    strengths :=
      educationScore.strengths ++ languageScore.strengths ++ workScore.strengths ++
        financialScore.strengths
    weaknesses := weaknesses
    suggestion := generateSuggestion score weaknesses }

/-- The sum of the four category contributions before the clamp of
eligibilityCalculator.ts line 23. -/
def unclampedScore (p : Profile) : ℤ :=
  (calculateEducationScore p).score + (calculateLanguageScore p).score +
    (calculateWorkExperienceScore p).score + (calculateFinancialScore p).score

/-- The report handler verdict, src/server/routes.ts line 507:
the stored eligibility score is compared against 70. -/
def reportIsEligible (eligibilityScore : ℤ) : Bool :=
  decide (eligibilityScore ≥ 70)

/-- The suggestion ladder exactly as the spec states it: evaluated top-down
on the final clamped score, first match wins. -/
def suggestionLadderSpec (score : ℤ) : String :=
  if score ≥ 85 then excellentSuggestion
  else if score ≥ 75 then greatSuggestion
  else if score ≥ 65 then goodSuggestion
  else if score ≥ 55 then potentialSuggestion
  else needsImprovementSuggestion

/-- The five messages `generateSuggestion` can return. -/
def suggestionMessages : List String :=
  [excellentSuggestion, greatSuggestion, goodSuggestion, potentialSuggestion,
    needsImprovementSuggestion]

/-- A well-formed engine result: score in range, verdict derived from the
score at the 60 cutoff, and the suggestion one of the five fixed messages. -/
def wellFormedResult (r : EligibilityResult) : Prop :=
  0 ≤ r.score ∧ r.score ≤ 100 ∧ (r.isEligible = true ↔ 60 ≤ r.score) ∧
    r.suggestion ∈ suggestionMessages

/-- Scenario 1 of the spec: every category at its maximum tier. -/
def maxProfile : Profile :=
  { education := some "phd", hasLanguageTest := some "yes", languageTest := some "ielts",
    ieltsScore := some "8.0", hasWorkExperience := some "yes",
    workExperienceYears := some "6", financialCapacity := some "above-60" }

/-- The all-absent profile (scenario 5 of the spec). -/
def emptyProfile : Profile := {}

/-- A profile declaring an IELTS test with a non-empty score string that does
not parse as a number. -/
def unparsableIeltsProfile : Profile :=
  { hasLanguageTest := some "yes", languageTest := some "ielts", ieltsScore := some "abc" }

/-- A profile declaring work experience with a non-empty years string that
does not parse as an integer. -/
def unparsableWorkProfile : Profile :=
  { hasWorkExperience := some "yes", workExperienceYears := some "abc" }

/-- A profile declaring an IELTS test, with the score field left to vary. -/
def ieltsBaseProfile : Profile :=
  { hasLanguageTest := some "yes", languageTest := some "ielts" }

/-- A profile whose score lands between the two eligibility cutoffs:
master 30 + IELTS 6.0 band 20 + work floor 5 + financial floor 10 = 65. -/
def betweenCutoffsProfile : Profile :=
  { education := some "master", hasLanguageTest := some "yes",
    languageTest := some "ielts", ieltsScore := some "6.0" }

/-- A string a JS float parses from is non-empty. -/
theorem jsParseFloat_isEmpty_eq_false {s : String} {v : ℚ} (h : jsParseFloat s = some v) :
    s.isEmpty = false := by
  cases hs : s.isEmpty with
  | false => rfl
  | true =>
    rw [(String.isEmpty_iff s).mp hs] at h
    simp [jsParseFloat, spanDigits] at h

/-- The education contribution lies in `[0, 35]`. -/
theorem educationScore_bounds (p : Profile) :
    0 ≤ (calculateEducationScore p).score ∧ (calculateEducationScore p).score ≤ 35 := by
  simp only [calculateEducationScore]
  split_ifs <;> simp

/-- The language contribution lies in `[0, 30]`. -/
theorem languageScore_bounds (p : Profile) :
    0 ≤ (calculateLanguageScore p).score ∧ (calculateLanguageScore p).score ≤ 30 := by
  simp only [calculateLanguageScore]
  split_ifs <;> simp

/-- The work-experience contribution lies in `[5, 15]`. -/
theorem workScore_bounds (p : Profile) :
    5 ≤ (calculateWorkExperienceScore p).score ∧ (calculateWorkExperienceScore p).score ≤ 15 := by
  simp only [calculateWorkExperienceScore]
  split_ifs <;> simp

/-- The financial contribution lies in `[10, 20]`. -/
theorem financialScore_bounds (p : Profile) :
    10 ≤ (calculateFinancialScore p).score ∧ (calculateFinancialScore p).score ≤ 20 := by
  simp only [calculateFinancialScore]
  split_ifs <;> simp

/-- The unclamped sum of the four contributions lies in `[15, 100]`. -/
theorem unclampedScore_bounds (p : Profile) :
    15 ≤ unclampedScore p ∧ unclampedScore p ≤ 100 := by
  have he := educationScore_bounds p
  have hl := languageScore_bounds p
  have hw := workScore_bounds p
  have hf := financialScore_bounds p
  unfold unclampedScore
  omega

/-- The clamped engine score equals the clamp applied to `unclampedScore`. -/
theorem calculateEligibilityScore_score (p : Profile) :
    (calculateEligibilityScore p).score = min (max (unclampedScore p) 0) 100 := by
  simp only [calculateEligibilityScore, unclampedScore]

/-- `generateSuggestion` always returns one of the five fixed messages. -/
theorem generateSuggestion_mem (score : ℤ) (w : List Msg) :
    generateSuggestion score w ∈ suggestionMessages := by
  simp only [generateSuggestion, suggestionMessages]
  split_ifs <;> simp

/-- The engine verdict equals the 60-cutoff test on the clamped score. -/
theorem calculateEligibilityScore_isEligible (p : Profile) :
    (calculateEligibilityScore p).isEligible = true ↔ 60 ≤ (calculateEligibilityScore p).score := by
  simp only [calculateEligibilityScore]
  simp

/-- The engine suggestion is `generateSuggestion` of the clamped score. -/
theorem calculateEligibilityScore_suggestion (p : Profile) :
    (calculateEligibilityScore p).suggestion =
      generateSuggestion (calculateEligibilityScore p).score
        (calculateEligibilityScore p).weaknesses := rfl

/-- C1 counterexample: on the profile declaring an IELTS test with the
unparsable score string "abc", the language category contributes 10 points
(not 0) and records the low-IELTS weakness (not the fixed no-test-provided
weakness), so an unparsable score is not treated like an absent test. -/
theorem C1_unparsable_score_not_treated_as_absent :
    ¬ ((calculateLanguageScore unparsableIeltsProfile).score = 0 ∧
      (calculateLanguageScore unparsableIeltsProfile).weaknesses = [Msg.noLanguageTest]) := by
  decide

/-- C1 (amended): with `hasLanguageTest` "yes" and a non-empty but
unparsable score string, the truthiness guard is passed and `NaN` falls
through every threshold: IELTS contributes 10 points with the low-IELTS
weakness, TOEFL and PTE contribute 15 points with their respective
could-be-improved weaknesses.  Only an absent or empty score string is
treated like an absent test. -/
theorem C1_unparsable_score_reaches_lowest_band (p : Profile) (s : String)
    (h1 : p.hasLanguageTest = some "yes") (hscore : p.ieltsScore = some s)
    (hne : s.isEmpty = false) (hnan : jsParseFloat s = none) :
    (p.languageTest = some "ielts" →
      (calculateLanguageScore p).score = 10 ∧
        (calculateLanguageScore p).weaknesses = [Msg.lowIelts none]) ∧
    (p.languageTest = some "toefl" →
      (calculateLanguageScore p).score = 15 ∧
        (calculateLanguageScore p).weaknesses = [Msg.toeflCouldImprove none]) ∧
    (p.languageTest = some "pte" →
      (calculateLanguageScore p).score = 15 ∧
        (calculateLanguageScore p).weaknesses = [Msg.pteNeedsImprovement none]) := by
  refine ⟨fun ht => ?_, fun ht => ?_, fun ht => ?_⟩ <;>
    simp +decide [calculateLanguageScore, h1, ht, hscore, truthy, hne, hnan, qGe]

/-- C1 witness: the amended statement evaluated on the concrete unparsable
IELTS profile. -/
theorem C1_unparsable_score_witness :
    (calculateLanguageScore unparsableIeltsProfile).score = 10 ∧
      (calculateLanguageScore unparsableIeltsProfile).weaknesses = [Msg.lowIelts none] :=
  (C1_unparsable_score_reaches_lowest_band unparsableIeltsProfile "abc" rfl rfl
    (by decide) (by decide)).1 rfl

/-- C2 counterexample: on the profile declaring work experience with the
unparsable years string "abc", the category contributes 5 points but also
pushes the some-work-experience strength, so it does not append nothing. -/
theorem C2_unparsable_years_pushes_strength :
    ¬ ((calculateWorkExperienceScore unparsableWorkProfile).score = 5 ∧
      (calculateWorkExperienceScore unparsableWorkProfile).strengths = [] ∧
      (calculateWorkExperienceScore unparsableWorkProfile).weaknesses = []) := by
  decide

/-- C2 (amended): when the flag is not "yes" or the years string is absent
or empty, the category contributes a flat 5 points with no message; when
the flag is "yes" and the years string is non-empty but unparsable, `NaN`
falls through every threshold and the category contributes 5 points while
pushing the some-work-experience strength. -/
theorem C2_work_floor_behaviour (p : Profile) :
    (¬ (p.hasWorkExperience = some "yes" ∧ truthy p.workExperienceYears = true) →
      calculateWorkExperienceScore p = ⟨5, [], []⟩) ∧
    ∀ s : String, p.hasWorkExperience = some "yes" → p.workExperienceYears = some s →
      s.isEmpty = false → jsParseInt s = none →
      calculateWorkExperienceScore p = ⟨5, [Msg.someWork], []⟩ := by
  constructor
  · intro h
    simp only [calculateWorkExperienceScore]
    rw [if_neg h]
  · intro s hy hw hne hnan
    simp [calculateWorkExperienceScore, hy, hw, truthy, hne, hnan, zGe]

/-- C2 witness: the amended statement evaluated on the concrete unparsable
work-experience profile. -/
theorem C2_work_floor_witness :
    calculateWorkExperienceScore unparsableWorkProfile = ⟨5, [Msg.someWork], []⟩ :=
  (C2_work_floor_behaviour unparsableWorkProfile).2 "abc" rfl rfl (by decide) (by decide)

/-- C3: the clamped engine score lies in `[0, 100]` on every profile. -/
theorem C3_score_in_range (p : Profile) :
    0 ≤ (calculateEligibilityScore p).score ∧ (calculateEligibilityScore p).score ≤ 100 := by
  rw [calculateEligibilityScore_score]
  have hb := unclampedScore_bounds p
  omega

/-- C4: the engine verdict is true exactly when the returned score is at
least 60, on every profile. -/
theorem C4_isEligible_iff_score_ge_60 (p : Profile) :
    (calculateEligibilityScore p).isEligible = true ↔
      60 ≤ (calculateEligibilityScore p).score :=
  calculateEligibilityScore_isEligible p

/-- C5 counterexample: no profile attains an unclamped sum of 105 and no
profile attains 0; the sum always lies in `[15, 100]`. -/
theorem C5_unclamped_sum_never_105_nor_0 :
    (¬ ∃ p : Profile, unclampedScore p = 105) ∧ ¬ ∃ p : Profile, unclampedScore p = 0 := by
  constructor <;> rintro ⟨p, hp⟩ <;> have hb := unclampedScore_bounds p <;> omega

/-- C5 (amended): over all profiles the unclamped sum of the four category
contributions has maximum 100 (attained by the all-maximal profile) and
minimum 15 (attained by the all-absent profile), and no profile exceeds
100. -/
theorem C5_unclamped_sum_range :
    (∃ p : Profile, unclampedScore p = 100) ∧ (∃ p : Profile, unclampedScore p = 15) ∧
      ∀ p : Profile, unclampedScore p ≤ 100 := by
  refine ⟨⟨maxProfile, by decide⟩, ⟨emptyProfile, by decide⟩,
    fun p => (unclampedScore_bounds p).2⟩

/-- C6: the engine is a total function on profiles — every profile,
including the all-absent one and ones with unrecognized category values or
unparsable numeric strings, is mapped to a well-formed result: score in
`[0, 100]`, verdict derived at the 60 cutoff, and the suggestion one of the
five fixed messages.  No error branch exists. -/
theorem C6_total_and_well_formed (p : Profile) :
    wellFormedResult (calculateEligibilityScore p) := by
  have hb := unclampedScore_bounds p
  have hs := calculateEligibilityScore_score p
  refine ⟨by omega, by omega, calculateEligibilityScore_isEligible p, ?_⟩
  rw [calculateEligibilityScore_suggestion]
  exact generateSuggestion_mem _ _

/-- C7: on every profile the suggestion equals the spec's five-message
ladder evaluated top-down on the final clamped score. -/
theorem C7_suggestion_follows_ladder (p : Profile) :
    (calculateEligibilityScore p).suggestion =
      suggestionLadderSpec (calculateEligibilityScore p).score := by
  rw [calculateEligibilityScore_suggestion]
  rfl

/-- C8: the report handler marks an applicant eligible exactly when the
stored score is at least 70, independently of the engine verdict: the
concrete profile scoring 65 is eligible for the engine (cutoff 60) but not
for the report (cutoff 70). -/
theorem C8_report_cutoff_70 :
    (∀ s : ℤ, reportIsEligible s = true ↔ 70 ≤ s) ∧
      (calculateEligibilityScore betweenCutoffsProfile).isEligible = true ∧
        reportIsEligible (calculateEligibilityScore betweenCutoffsProfile).score = false := by
  refine ⟨fun s => by simp [reportIsEligible], by decide, by decide⟩

/-- C9: with a declared IELTS test and parsable scores, a strictly higher
score value never yields a strictly lower language contribution. -/
theorem C9_ielts_band_monotone (p : Profile) (s t : String) (v w : ℚ)
    (h1 : p.hasLanguageTest = some "yes") (h2 : p.languageTest = some "ielts")
    (hs : jsParseFloat s = some v) (ht : jsParseFloat t = some w) (hvw : v < w) :
    (calculateLanguageScore { p with ieltsScore := some s }).score ≤
      (calculateLanguageScore { p with ieltsScore := some t }).score := by
  have hs' := jsParseFloat_isEmpty_eq_false hs
  have ht' := jsParseFloat_isEmpty_eq_false ht
  simp +decide [calculateLanguageScore, h1, h2, truthy, hs', ht', hs, ht, qGe,
    Rat.mkRat_eq_div]
  split_ifs <;> dsimp only <;> linarith

/-- C9 witness: the monotonicity statement evaluated at IELTS scores 6.0
and 7.0 over the base IELTS profile. -/
theorem C9_ielts_band_monotone_witness :
    (calculateLanguageScore { ieltsBaseProfile with ieltsScore := some "6.0" }).score ≤
      (calculateLanguageScore { ieltsBaseProfile with ieltsScore := some "7.0" }).score :=
  C9_ielts_band_monotone ieltsBaseProfile "6.0" "7.0" 6 7 rfl rfl (by decide) (by decide)
    (by decide)

/-- C10: the returned score is at least 15 on every profile, and the lower
clamp at 0 is never the active bound. -/
theorem C10_score_at_least_15 (p : Profile) :
    15 ≤ (calculateEligibilityScore p).score ∧
      max (unclampedScore p) 0 = unclampedScore p := by
  have hb := unclampedScore_bounds p
  rw [calculateEligibilityScore_score]
  omega

end StudentBackend
